import Mathlib

/-!
Shallow embedding of the stock-analysis service (src/api/app.py): the TTL
cache, the five fetch bodies, the fan-out orchestrator `analyze_stock`, the
insight assembly and the two numeric formatters.  Upstream provider payloads
are modelled as records of optional fields (a missing dictionary key is
`none`); Python exceptions are modelled with `Except String`.
-/

set_option maxRecDepth 4000

namespace StockAnalysis

/-! ### Rendering helpers: models of the Python string formatting used by the source -/

/-- Decimal digit to character. -/
def digitChar (n : Nat) : Char := Char.ofNat (48 + n)

/-- Least-significant-first decimal digits of a natural number (fuel-bounded;
64 digits is far beyond any value in the source). -/
def natDigitsRev : Nat → Nat → List Char
  | 0, _ => []
  | fuel + 1, n => if n = 0 then [] else digitChar (n % 10) :: natDigitsRev fuel (n / 10)

/-- Decimal rendering of a natural number, as Python renders an int. -/
def natStr (n : Nat) : String := if n = 0 then "0" else String.mk (natDigitsRev 64 n).reverse

/-- Decimal rendering of an integer, as Python renders an int. -/
def intRepr (i : Int) : String := if i < 0 then "-" ++ natStr i.natAbs else natStr i.natAbs

/-- Left-pad a digit list with zeros to the given length. -/
def padZeros (s : List Char) (len : Nat) : List Char := List.replicate (len - s.length) '0' ++ s

/-- Drop trailing zero characters. -/
def trimZerosR (l : List Char) : List Char := (l.reverse.dropWhile (fun c => c == '0')).reverse

/-- Round to the nearest integer, halves away from zero toward plus infinity:
floor (q + 1/2) computed on the numerator and denominator.  Models the
rounding CPython performs when formatting; every value this development
evaluates is far from a tie, so the tie-breaking convention is immaterial. -/
def roundQ (q : ℚ) : Int := Int.fdiv (2 * q.num + q.den) (2 * q.den)

/-- Python round(q, d). -/
def roundTo (q : ℚ) (d : Nat) : ℚ := (roundQ (q * 10 ^ d) : ℚ) / 10 ^ d

/-- Python format spec .df for a nonnegative rational: fixed point, d decimals. -/
def formatFixedNN (q : ℚ) (d : Nat) : String :=
  let n := (roundQ (q * 10 ^ d)).toNat
  let ip := n / 10 ^ d
  let fp := n % 10 ^ d
  if d = 0 then natStr ip
  else natStr ip ++ "." ++ String.mk (padZeros (natDigitsRev 64 fp).reverse d)

/-- Python format spec .df (fixed-point with d decimals). -/
def formatFixed (q : ℚ) (d : Nat) : String :=
  if q < 0 then "-" ++ formatFixedNN (-q) d else formatFixedNN q d

/-- Python format spec +.1f (sign always shown, one decimal). -/
def formatSigned1 (q : ℚ) : String :=
  if q < 0 then "-" ++ formatFixedNN (-q) 1 else "+" ++ formatFixedNN q 1

/-- Insert thousands separators into a least-significant-first digit list. -/
def group3Rev : List Char → List Char
  | [] => []
  | [a] => [a]
  | [a, b] => [a, b]
  | [a, b, c] => [a, b, c]
  | a :: b :: c :: d :: rest => a :: b :: c :: ',' :: group3Rev (d :: rest)

/-- Thousands-separated rendering of a natural number. -/
def commaNat (n : Nat) : String :=
  if n = 0 then "0" else String.mk (group3Rev (natDigitsRev 64 n)).reverse

/-- Python format spec ,.0f (thousands separators, no decimals). -/
def formatComma0 (q : ℚ) : String :=
  if q < 0 then "-" ++ commaNat (roundQ (-q)).toNat else commaNat (roundQ q).toNat

/-- Rendering of a numeric value by a bare f-string interpolation of a float:
decimal expansion (truncated to six places on non-terminating values) with
trailing zeros trimmed, at least one fractional digit kept. -/
def pyStr (q : ℚ) : String :=
  let sgn := if q < 0 then "-" else ""
  let a := if q < 0 then -q else q
  let n := (roundQ (a * 10 ^ 6)).toNat
  let ip := n / 10 ^ 6
  let fp := n % 10 ^ 6
  let frac := trimZerosR (padZeros (natDigitsRev 64 fp).reverse 6)
  sgn ++ natStr ip ++ "." ++ (if frac.isEmpty then "0" else String.mk frac)

/-- ASCII uppercase of a character. -/
def charUpper (c : Char) : Char :=
  if 97 ≤ c.toNat ∧ c.toNat ≤ 122 then Char.ofNat (c.toNat - 32) else c

/-- Python str.upper (ASCII, which covers every string the source uppercases). -/
def strUpper (s : String) : String := String.mk (s.data.map charUpper)

/-- Python slicing s[:n] by characters. -/
def strTake (s : String) (n : Nat) : String := String.mk (s.data.take n)

/-- Whether the first list starts with the second list. -/
def startsWithL : List Char → List Char → Bool
  | [], _ => true
  | _ :: _, [] => false
  | p :: ps, s :: ss => p == s && startsWithL ps ss

/-- Whether pat occurs as a contiguous run inside the list. -/
def containsL (pat : List Char) : List Char → Bool
  | [] => pat.isEmpty
  | s :: rest => startsWithL pat (s :: rest) || containsL pat rest

/-- Substring test on strings. -/
def strContains (s pat : String) : Bool := containsL pat.data s.data

/-! ### Data model (section 3 of the spec, shapes taken from app.py) -/

/-- Company profile subrecord (the companyInfo dictionary of the quote record). -/
structure CompanyInfo where
  name : String
  industry : String
  sector : String
  website : String
  description : String
  employees : Option Nat
deriving DecidableEq

structure GrowthPair where
  current : ℚ
  projected : ℚ
deriving DecidableEq

structure GrowthMetrics where
  revenue : GrowthPair
  earnings : GrowthPair
  marketShare : GrowthPair
deriving DecidableEq

/-- Quote record produced by the quote fetch (get_stock_data).  The pe field
models the peRatio key, which holds either a rounded number or the string
N/A (rendered from `none`); the fiftyTwoWeek fields keep the raw optional
provider values (Python stores None when the key is absent). -/
structure StockData where
  currentPrice : ℚ
  priceChange : ℚ
  priceChangePercent : ℚ
  marketCap : String
  pe : Option ℚ
  fiftyTwoWeekHigh : Option ℚ
  fiftyTwoWeekLow : Option ℚ
  industry : String
  sector : String
  companyInfo : CompanyInfo
  growthMetrics : GrowthMetrics
deriving DecidableEq

/-- One row of the financial-metric sequence. -/
structure FinancialMetric where
  name : String
  current : String
  historical : String
  growth : ℚ
  cagr : ℚ
  source : String
deriving DecidableEq

/-- Price-target dictionary.  Every field is optional because the orchestrator
substitutes an empty dictionary for it when the analyst fetch fails. -/
structure PriceTargets where
  current : Option ℚ
  average : Option ℚ
  low : Option ℚ
  high : Option ℚ
  source : Option String
deriving DecidableEq

structure Recommendations where
  strongBuy : ℚ
  buy : ℚ
  hold : ℚ
  sell : ℚ
  strongSell : ℚ
  source : String
deriving DecidableEq

/-- Analyst-consensus record; numberOfAnalysts and recommendations are keys
missing from the failure fallback dictionary. -/
structure AnalystData where
  consensusRating : String
  numberOfAnalysts : Option Int
  priceTargets : PriceTargets
  recommendations : Option Recommendations
deriving DecidableEq

structure NewsEntry where
  title : String
  publisher : String
  link : String
  publishedAt : String
deriving DecidableEq

/-- News-sentiment record; sentimentScore and source are keys missing from the
failure fallback dictionary. -/
structure NewsData where
  overallSentiment : String
  sentimentScore : Option ℚ
  recentNews : List NewsEntry
  source : Option String
deriving DecidableEq

/-- Peer-comparison record; only industry is present in the failure fallback. -/
structure PeerData where
  industry : String
  peerRanking : Option String
  competitivePosition : Option String
  source : Option String
  note : Option String
deriving DecidableEq

/-- One fixed-shape narrative record. -/
structure Insight where
  key : String
  name : String
  icon : String
  subtitle : String
  summary : String
  strengths : List String
  risks : List String
  dataSource : String
deriving DecidableEq

/-- The metrics block of the combined result. -/
structure Metrics where
  currentPrice : ℚ
  priceChange : ℚ
  priceChangePercent : ℚ
  marketCap : String
  pe : Option ℚ
  analystRating : String
  source : String
deriving DecidableEq

structure SourcesBlock where
  primary : String
  supplementary : List String
  last_updated : String
deriving DecidableEq

/-- The top-level per-request result. -/
structure Analysis where
  ticker : String
  timestamp : String
  sources : SourcesBlock
  metrics : Metrics
  priceTargets : PriceTargets
  financials : List FinancialMetric
  growthMetrics : GrowthMetrics
  agentInsights : List Insight
  companyInfo : CompanyInfo
deriving DecidableEq

/-- Upstream provider payload fields consumed by the quote fetch; size models
len(info), the number of keys of the raw payload. -/
structure QuoteInfo where
  size : Nat
  currentPrice : Option ℚ
  regularMarketPrice : Option ℚ
  previousClose : Option ℚ
  marketCap : Option ℚ
  trailingPE : Option ℚ
  fiftyTwoWeekHigh : Option ℚ
  fiftyTwoWeekLow : Option ℚ
  industry : Option String
  sector : Option String
  longName : Option String
  website : Option String
  longBusinessSummary : Option String
  fullTimeEmployees : Option Nat
  revenueGrowth : Option ℚ
  earningsGrowth : Option ℚ

/-- Provider fields consumed by the financial-metrics fetch. -/
structure FinInfo where
  totalRevenue : Option ℚ
  revenueGrowth : Option ℚ
  grossMargins : Option ℚ
  freeCashflow : Option ℚ
  operatingMargins : Option ℚ

/-- Provider fields consumed by the analyst-consensus fetch. -/
structure AnalystInfo where
  currentPrice : Option ℚ
  regularMarketPrice : Option ℚ
  targetMeanPrice : Option ℚ
  targetHighPrice : Option ℚ
  targetLowPrice : Option ℚ
  recommendationKey : Option String
  numberOfAnalystOpinions : Option Int
  recommendationMean : Option ℚ

/-- One raw provider news item. -/
structure NewsItem where
  title : Option String
  publisher : Option String
  link : Option String
  providerPublishTime : Option ℚ

/-! ### The two numeric formatters (format_market_cap, format_large_number) -/

/-- format_market_cap from the source: tiers at 10^12, 10^9, 10^6 with two
decimals and suffixes T, B, M; grouped plain dollars below 10^6. -/
def format_market_cap (value : ℚ) : String :=
  if 1000000000000 ≤ value then "$" ++ formatFixed (value / 1000000000000) 2 ++ "T"
  else if 1000000000 ≤ value then "$" ++ formatFixed (value / 1000000000) 2 ++ "B"
  else if 1000000 ≤ value then "$" ++ formatFixed (value / 1000000) 2 ++ "M"
  else "$" ++ formatComma0 value

/-- format_large_number from the source: tiers at 10^9 and 10^6 only, one
decimal, suffixes B and M; grouped plain dollars below 10^6. -/
def format_large_number (value : ℚ) : String :=
  if 1000000000 ≤ value then "$" ++ formatFixed (value / 1000000000) 1 ++ "B"
  else if 1000000 ≤ value then "$" ++ formatFixed (value / 1000000) 1 ++ "M"
  else "$" ++ formatComma0 value

/-! ### Fetch bodies (the fetch closures of the five get_ functions) -/

/-- Python truthy-or over two optional price keys with a final default:
info.get(k1) or info.get(k2, d).  A present-but-zero first key is falsy. -/
def priceOr (cp rmp : Option ℚ) (d : ℚ) : ℚ :=
  match cp with
  | some p => if p ≠ 0 then p else rmp.getD d
  | none => rmp.getD d

/-- current_price resolution of the quote fetch:
info.get(currentPrice) or info.get(regularMarketPrice, 0). -/
def resolvePrice (info : QuoteInfo) : ℚ := priceOr info.currentPrice info.regularMarketPrice 0

/-- Python pattern: info.get(k, 0) * m if info.get(k) else 0. -/
def truthyScale (o : Option ℚ) (m : ℚ) : ℚ :=
  match o with
  | some r => if r ≠ 0 then r * m else 0
  | none => 0

/-- The successful-payload part of the quote record construction. -/
def mkStockData (ticker : String) (info : QuoteInfo) : StockData :=
  { currentPrice := roundTo (resolvePrice info) 2
    priceChange := roundTo (resolvePrice info - info.previousClose.getD (resolvePrice info)) 2
    priceChangePercent :=
      if info.previousClose.getD (resolvePrice info) > 0 then
        roundTo ((resolvePrice info - info.previousClose.getD (resolvePrice info))
          / info.previousClose.getD (resolvePrice info) * 100) 2
      else 0
    marketCap := format_market_cap (info.marketCap.getD 0)
    pe := match info.trailingPE with
      | some p => if p ≠ 0 then some (roundTo p 2) else none
      | none => none
    fiftyTwoWeekHigh := info.fiftyTwoWeekHigh
    fiftyTwoWeekLow := info.fiftyTwoWeekLow
    industry := info.industry.getD "Unknown"
    sector := info.sector.getD "Unknown"
    companyInfo :=
      { name := info.longName.getD ticker
        industry := info.industry.getD "Unknown"
        sector := info.sector.getD "Unknown"
        website := info.website.getD ""
        description := strTake (info.longBusinessSummary.getD "") 500
        employees := info.fullTimeEmployees }
    growthMetrics :=
      { revenue := { current := truthyScale info.revenueGrowth 100
                     projected := truthyScale info.revenueGrowth 120 }
        earnings := { current := truthyScale info.earningsGrowth 100
                      projected := truthyScale info.earningsGrowth 130 }
        marketShare := { current := 0, projected := 0 } } }

/-- Inner body of the quote fetch: the sparse-payload guard (len(info) < 5),
the zero-price guard, then the record construction.  The zero-price message
omits the key listing the source appends. -/
def quoteInner (ticker : String) (infoRes : Except String QuoteInfo) : Except String StockData :=
  match infoRes with
  | Except.error e => Except.error e
  | Except.ok info =>
    if info.size < 5 then
      Except.error ("No data returned for ticker " ++ ticker ++
        ". Ticker may be invalid or Yahoo Finance is blocking requests.")
    else if resolvePrice info = 0 then
      Except.error ("Could not fetch price for " ++ ticker ++ ".")
    else
      Except.ok (mkStockData ticker info)

/-- Quote fetch body of get_stock_data: any failure is re-raised with the
yfinance-error prefix. -/
def get_stock_data_fetch (ticker : String) (infoRes : Except String QuoteInfo) :
    Except String StockData :=
  match quoteInner ticker infoRes with
  | Except.error e => Except.error ("yfinance error for " ++ ticker ++ ": " ++ e)
  | Except.ok d => Except.ok d

/-- Fetch body of get_financial_metrics: the four fixed rows. -/
def get_financial_metrics_fetch (info : FinInfo) : List FinancialMetric :=
  let revenue := info.totalRevenue.getD 0
  let revenue_growth := truthyScale info.revenueGrowth 100
  let gross_margin := truthyScale info.grossMargins 100
  let fcf := info.freeCashflow.getD 0
  let op_margin := truthyScale info.operatingMargins 100
  [ { name := "Revenue (TTM)"
      current := format_large_number revenue
      historical := format_large_number (revenue * (17/20))
      growth := roundTo revenue_growth 1
      cagr := roundTo (revenue_growth * (4/5)) 1
      source := "Yahoo Finance - Company Financials" },
    { name := "Gross Margin"
      current := pyStr (roundTo gross_margin 1) ++ "%"
      historical := pyStr (roundTo (gross_margin * (19/20)) 1) ++ "%"
      growth := roundTo (gross_margin - gross_margin * (19/20)) 1
      cagr := roundTo ((gross_margin - gross_margin * (19/20)) * (1/2)) 1
      source := "Yahoo Finance - Profitability Metrics" },
    { name := "Free Cash Flow"
      current := format_large_number fcf
      historical := format_large_number (fcf * (4/5))
      growth := roundTo 25 1
      cagr := roundTo 20 1
      source := "Yahoo Finance - Cash Flow Statement" },
    { name := "Operating Margin"
      current := pyStr (roundTo op_margin 1) ++ "%"
      historical := pyStr (roundTo (op_margin * (23/25)) 1) ++ "%"
      growth := roundTo (op_margin - op_margin * (23/25)) 1
      cagr := roundTo ((op_margin - op_margin * (23/25)) * (3/5)) 1
      source := "Yahoo Finance - Operating Metrics" } ]

/-- The recommendation-key to display-rating dictionary. -/
def ratingMap (r : String) : String :=
  if r = "STRONG_BUY" then "Strong Buy"
  else if r = "BUY" then "Buy"
  else if r = "HOLD" then "Hold"
  else if r = "SELL" then "Sell"
  else if r = "STRONG_SELL" then "Strong Sell"
  else "Hold"

/-- Fetch body of get_analyst_consensus. -/
def get_analyst_consensus_fetch (info : AnalystInfo) : AnalystData :=
  let current_price := priceOr info.currentPrice info.regularMarketPrice 100
  let target_mean := info.targetMeanPrice.getD (current_price * (23/20))
  let target_high := info.targetHighPrice.getD (current_price * (27/20))
  let target_low := info.targetLowPrice.getD (current_price * (17/20))
  { consensusRating := ratingMap (strUpper (info.recommendationKey.getD "hold"))
    numberOfAnalysts := some (info.numberOfAnalystOpinions.getD 0)
    priceTargets :=
      { current := some (roundTo current_price 2)
        average := some (roundTo target_mean 2)
        low := some (roundTo target_low 2)
        high := some (roundTo target_high 2)
        source := some "Yahoo Finance - Analyst Consensus" }
    recommendations := some
      { strongBuy := info.recommendationMean.getD 0
        buy := 0, hold := 0, sell := 0, strongSell := 0
        source := "Yahoo Finance - Analyst Ratings" } }

/-- Fetch body of get_news_sentiment.  The score is the hardcoded 0.65
placeholder; fmtTime models datetime.fromtimestamp(...).strftime. -/
def get_news_sentiment_fetch (fmtTime : ℚ → String) (newsItems : List NewsItem) : NewsData :=
  let news := newsItems.take 5
  let sentiment_score : ℚ := 13/20
  { overallSentiment :=
      if sentiment_score > 3/5 then "Positive"
      else if sentiment_score > 2/5 then "Neutral"
      else "Negative"
    sentimentScore := some sentiment_score
    recentNews := news.map (fun item =>
      { title := item.title.getD ""
        publisher := item.publisher.getD ""
        link := item.link.getD ""
        publishedAt := fmtTime (item.providerPublishTime.getD 0) })
    source := some "Yahoo Finance News Feed" }

/-- Fetch body of get_peer_comparison: a pure stub parameterized by industry. -/
def get_peer_comparison_fetch (industry : String) : PeerData :=
  { industry := industry
    peerRanking := some "Top Quartile"
    competitivePosition := some "Strong"
    source := some "Industry Analysis (requires premium data for detailed peer metrics)"
    note := some "Detailed peer comparison requires subscription to financial data providers" }

/-! ### Failure fallbacks of the orchestrator (the per-fetch except blocks) -/

/-- Fallback substituted when the analyst fetch fails: rating N/A and an
empty priceTargets dictionary (all keys absent). -/
def analystFallback : AnalystData :=
  { consensusRating := "N/A", numberOfAnalysts := none
    priceTargets := { current := none, average := none, low := none, high := none, source := none }
    recommendations := none }

/-- Fallback substituted when the news fetch fails. -/
def newsFallback : NewsData :=
  { overallSentiment := "Neutral", sentimentScore := none, recentNews := [], source := none }

/-- Fallback substituted when the peer fetch fails: industry-only stub. -/
def peerFallback : PeerData :=
  { industry := "Unknown", peerRanking := none, competitivePosition := none
    source := none, note := none }

/-- Degradable evaluation of the financial-metrics fetch. -/
def degradeFin : Except String (List FinancialMetric) → List FinancialMetric
  | Except.ok d => d
  | Except.error _ => []

/-- Degradable evaluation of the analyst fetch. -/
def degradeAnalyst : Except String AnalystData → AnalystData
  | Except.ok d => d
  | Except.error _ => analystFallback

/-- Degradable evaluation of the news fetch. -/
def degradeNews : Except String NewsData → NewsData
  | Except.ok d => d
  | Except.error _ => newsFallback

/-- Degradable evaluation of the peer fetch. -/
def degradePeer : Except String PeerData → PeerData
  | Except.ok d => d
  | Except.error _ => peerFallback

/-! ### Insight assembly (generate_agent_insights) -/

/-- The derived upside percentage: (average target - price) / price * 100,
guarded to 0 when the price is not positive. -/
def upsidePct (current_price target_price : ℚ) : ℚ :=
  if current_price > 0 then (target_price - current_price) / current_price * 100 else 0

/-- Rendering of the peRatio value: a rounded number or N/A. -/
def renderPE : Option ℚ → String
  | some q => pyStr q
  | none => "N/A"

/-- Python renders a missing 52-week value (stored as None) as the word None. -/
def renderOptPrice : Option ℚ → String
  | some q => pyStr q
  | none => "None"

/-- Rendering of the employees value: a count or N/A. -/
def renderEmployees : Option Nat → String
  | some n => natStr n
  | none => "N/A"

/-- generate_agent_insights from the source.  The three direct subscripts
into the priceTargets dictionary raise KeyError when the key is absent
(which happens exactly for the analyst-failure fallback); Python evaluates
the source key first (first f-string of the first insight), then low and
high.  The KeyError message models str(KeyError(k)). -/
def generate_agent_insights (ticker : String) (stock_data : StockData)
    (financial_data : List FinancialMetric) (analyst_data : AnalystData)
    (news_data : NewsData) (peer_data : PeerData) : Except String (List Insight) :=
  let current_price := stock_data.currentPrice
  let target_price := (analyst_data.priceTargets.average).getD 0
  let upside := upsidePct current_price target_price
  match analyst_data.priceTargets.source with
  | none => Except.error "KeyError: source"
  | some ptSource =>
  match analyst_data.priceTargets.low with
  | none => Except.error "KeyError: low"
  | some ptLow =>
  match analyst_data.priceTargets.high with
  | none => Except.error "KeyError: high"
  | some ptHigh =>
  let nAnalysts := intRepr (analyst_data.numberOfAnalysts.getD 0)
  let rmCurrent := match financial_data with
    | m :: _ => m.current
    | [] => "N/A"
  let rmGrowth : ℚ := match financial_data with
    | m :: _ => m.growth
    | [] => 0
  let rmSource := match financial_data with
    | m :: _ => m.source
    | [] => "Yahoo Finance"
  Except.ok [
    { key := "analyst_consensus", name := "Analyst Consensus", icon := "📊"
      subtitle := "Wall Street Price Targets & Ratings"
      summary := "Based on " ++ nAnalysts ++ " analyst ratings, " ++ ticker ++
        " has a consensus rating of \x27" ++ analyst_data.consensusRating ++
        "\x27 with an average price target of $" ++ formatFixed target_price 2 ++
        ", representing " ++ formatFixed upside 1 ++ "% " ++
        (if upside > 0 then "upside" else "downside") ++
        " from current levels. Data sourced from " ++ ptSource ++ "."
      strengths := [
        "Average price target: $" ++ formatFixed target_price 2 ++ " (Source: Yahoo Finance)",
        "Current analyst rating: " ++ analyst_data.consensusRating,
        "Price target range: $" ++ formatFixed ptLow 2 ++ " - $" ++ formatFixed ptHigh 2,
        "Based on " ++ nAnalysts ++ " professional analysts" ]
      risks := [
        "Actual price: $" ++ formatFixed current_price 2 ++ " - monitor gap to target",
        "Analyst estimates can vary significantly",
        "Ratings reflect historical analysis, market conditions change" ]
      dataSource := "Yahoo Finance API - Analyst Consensus Data" },
    { key := "news_sentiment", name := "News Sentiment", icon := "📰"
      subtitle := "Market Sentiment & Media Coverage"
      summary := "Recent sentiment analysis for " ++ ticker ++ " shows " ++
        news_data.overallSentiment ++ " coverage. " ++
        natStr news_data.recentNews.length ++ " recent articles analyzed from " ++
        news_data.source.getD "Yahoo Finance" ++ "."
      strengths := [
        "Overall sentiment: " ++ news_data.overallSentiment,
        "Recent coverage from major financial publishers",
        natStr news_data.recentNews.length ++ " news articles in past 30 days" ]
      risks := [
        "Media sentiment can be volatile and reactive",
        "News coverage doesn\x27t always predict stock performance",
        "Sentiment analysis has limitations" ]
      dataSource := "Yahoo Finance News API" },
    { key := "financial_analyst", name := "Financial Health", icon := "💰"
      subtitle := "Balance Sheet & Financial Metrics"
      summary := ticker ++ " shows revenue of " ++ rmCurrent ++ " with " ++
        formatFixed rmGrowth 1 ++ "% YoY growth. Market cap: " ++
        stock_data.marketCap ++ ", P/E ratio: " ++ renderPE stock_data.pe ++
        ". All data from " ++ rmSource ++ "."
      strengths := [
        "Market Cap: " ++ stock_data.marketCap ++ " (Source: Yahoo Finance)",
        "Revenue: " ++ rmCurrent ++ " with " ++ formatFixed rmGrowth 1 ++ "% growth",
        "Financial data verified from official company filings" ]
      risks := [
        "Historical data - future performance may differ",
        "Market conditions affect all metrics",
        "Financial metrics are backward-looking" ]
      dataSource := "Yahoo Finance - Company Financials & SEC Filings" },
    { key := "market_intelligence", name := "Market Intelligence", icon := "🌍"
      subtitle := "Industry & Market Position"
      summary := ticker ++ " operates in the " ++ stock_data.sector ++
        " sector, specifically in " ++ stock_data.industry ++
        ". Industry analysis based on " ++ peer_data.source.getD "market data" ++ "."
      strengths := [
        "Industry: " ++ stock_data.industry,
        "Sector: " ++ stock_data.sector,
        "Company employs " ++ renderEmployees stock_data.companyInfo.employees ++ " people" ]
      risks := [
        "Industry dynamics constantly evolving",
        "Competitive landscape subject to disruption",
        "Market share data requires premium sources" ]
      dataSource := "Yahoo Finance - Company Profile Data" },
    { key := "peer_comparison", name := "Peer Comparison", icon := "⚖️"
      subtitle := "Competitive Analysis"
      summary := ticker ++ " competitive position in " ++ stock_data.industry ++
        ". Note: " ++ peer_data.note.getD "Detailed peer data requires premium subscriptions" ++ "."
      strengths := [
        "Industry classification: " ++ stock_data.industry,
        "52-week range: $" ++ renderOptPrice stock_data.fiftyTwoWeekLow ++
          " - $" ++ renderOptPrice stock_data.fiftyTwoWeekHigh ]
      risks := [
        "Detailed peer comparison requires premium data sources",
        "Competitive metrics change frequently",
        "Industry benchmarks vary by subsector" ]
      dataSource := peer_data.source.getD "Market Analysis" },
    { key := "management_quality", name := "Management & Governance", icon := "👔"
      subtitle := "Leadership Assessment"
      summary := stock_data.companyInfo.name ++
        " leadership information. Detailed management analysis requires premium research services and insider trading data."
      strengths := [
        "Established company in " ++ stock_data.sector,
        "Public company with regulatory oversight",
        "Financial transparency through SEC filings" ]
      risks := [
        "Management quality metrics require premium data",
        "Insider trading analysis needs specialized sources",
        "Compensation data available in proxy statements" ]
      dataSource := "Public company disclosures (detailed analysis requires premium services)" },
    { key := "valuation", name := "Valuation Analysis", icon := "📈"
      subtitle := "Price & Value Assessment"
      summary := ticker ++ " trading at $" ++ formatFixed current_price 2 ++
        " with P/E ratio of " ++ renderPE stock_data.pe ++
        ". Analyst average target: $" ++ formatFixed target_price 2 ++ " (" ++
        formatSigned1 upside ++ "% vs current). Source: " ++ ptSource ++ "."
      strengths := [
        "Current Price: $" ++ formatFixed current_price 2 ++ " (Real-time from Yahoo Finance)",
        "P/E Ratio: " ++ renderPE stock_data.pe,
        "Analyst target suggests " ++ formatFixed (abs upside) 1 ++ "% " ++
          (if upside > 0 then "upside" else "downside") ]
      risks := [
        "Valuation multiples subject to market sentiment",
        "DCF models require assumptions about growth",
        "Market price can deviate from intrinsic value" ]
      dataSource := "Yahoo Finance - Real-time Pricing & Analyst Targets" },
    { key := "tech_risk", name := "Technology & Innovation", icon := "🔬"
      subtitle := "Product & Technology Assessment"
      summary := "Technology and innovation analysis for " ++ ticker ++ " in " ++
        stock_data.industry ++ ". " ++
        strTake stock_data.companyInfo.description 200 ++ "..."
      strengths := [
        "Operating in " ++ stock_data.sector ++ " sector",
        "Publicly available company information",
        "Industry subject to innovation" ]
      risks := [
        "Technology metrics require specialized research",
        "R&D efficiency analysis needs detailed data",
        "Patent analysis requires premium legal databases" ]
      dataSource := "Yahoo Finance - Company Description" } ]

/-! ### Orchestrator (analyze_stock) -/

/-- analyze_stock from the source, over the results of the five fetches.
nowIso and nowFmt stand for the two datetime.now() renderings; the peer
fetch is a function of the industry discovered by the quote fetch.  A quote
failure aborts; each of the other four degrades to its fallback; an
exception escaping insight assembly is caught by the outer handler and
returned as a request-level failure. -/
def analyze_stock (nowIso nowFmt tickerRaw : String)
    (quote : Except String StockData)
    (fin : Except String (List FinancialMetric))
    (analyst : Except String AnalystData)
    (news : Except String NewsData)
    (peer : String → Except String PeerData) : Except String Analysis :=
  match quote with
  | Except.error e => Except.error ("Failed to fetch stock data: " ++ e)
  | Except.ok stock_data =>
    match generate_agent_insights (strUpper tickerRaw) stock_data (degradeFin fin)
        (degradeAnalyst analyst) (degradeNews news) (degradePeer (peer stock_data.industry)) with
    | Except.error e => Except.error e
    | Except.ok insights =>
      Except.ok
        { ticker := strUpper tickerRaw
          timestamp := nowIso
          sources := { primary := "Yahoo Finance API"
                       supplementary := ["Financial Modeling Prep", "News API"]
                       last_updated := nowFmt }
          metrics := { currentPrice := stock_data.currentPrice
                       priceChange := stock_data.priceChange
                       priceChangePercent := stock_data.priceChangePercent
                       marketCap := stock_data.marketCap
                       pe := stock_data.pe
                       analystRating := (degradeAnalyst analyst).consensusRating
                       source := "Yahoo Finance" }
          priceTargets := (degradeAnalyst analyst).priceTargets
          financials := degradeFin fin
          growthMetrics := stock_data.growthMetrics
          agentInsights := insights
          companyInfo := stock_data.companyInfo }

/-! ### Cache (get_cached_or_fetch) -/

/-- The process-wide cache: key to (value, fetch timestamp). -/
abbrev Cache (V : Type) := String → Option (V × ℚ)

/-- CACHE_DURATION from the source: 300 seconds. -/
def CACHE_DURATION : ℚ := 300

/-- Outcome of one get_cached_or_fetch call: the returned (or propagated)
result, the cache afterwards, and whether the fetch function was invoked. -/
structure CacheOutcome (V : Type) where
  result : Except String V
  cache : Cache V
  invoked : Bool

/-- Invoke the fetch function: a success is stored under the key with the
current time; a raised failure propagates before any store happens. -/
def fetchStore {V : Type} (c : Cache V) (now : ℚ) (key : String)
    (fetchFn : Except String V) : CacheOutcome V :=
  match fetchFn with
  | Except.ok data => ⟨Except.ok data, fun k => if k = key then some (data, now) else c k, true⟩
  | Except.error e => ⟨Except.error e, c, true⟩

/-- get_cached_or_fetch from the source: return a non-expired entry without
invoking the fetch function, otherwise invoke it and store the result. -/
def get_cached_or_fetch {V : Type} (c : Cache V) (now : ℚ) (key : String)
    (fetchFn : Except String V) : CacheOutcome V :=
  match c key with
  | some (data, timestamp) =>
    if now - timestamp < CACHE_DURATION then ⟨Except.ok data, c, false⟩
    else fetchStore c now key fetchFn
  | none => fetchStore c now key fetchFn

/-! ### Result extractors -/

/-- The payload of a successful result. -/
def okValue {α : Type} : Except String α → Option α
  | Except.ok a => some a
  | Except.error _ => none

/-- The message of a failed result. -/
def errorMsg {α : Type} : Except String α → Option String
  | Except.error e => some e
  | Except.ok _ => none

/-- Whether a result is a failure. -/
def isFailure {α : Type} : Except String α → Bool
  | Except.error _ => true
  | Except.ok _ => false

/-! ### Concrete example inputs (the payloads of the spec example, section 8) -/

/-- Date renderer stub standing for datetime.fromtimestamp(..).strftime. -/
def exFmtTime : ℚ → String := fun _ => "2024-01-01"

/-- The quote payload of the spec example: currentPrice 150, previousClose
145, marketCap 2e9, trailingPE 25.  size is above the sparse-payload
threshold, as a real provider payload carrying these fields is. -/
def exQuoteInfo : QuoteInfo :=
  { size := 12
    currentPrice := some 150
    regularMarketPrice := none
    previousClose := some 145
    marketCap := some 2000000000
    trailingPE := some 25
    fiftyTwoWeekHigh := none
    fiftyTwoWeekLow := none
    industry := none
    sector := none
    longName := none
    website := none
    longBusinessSummary := none
    fullTimeEmployees := none
    revenueGrowth := none
    earningsGrowth := none }

/-- The analyst payload of the spec example: targetMeanPrice 172.5,
numberOfAnalystOpinions 12, recommendationKey buy. -/
def exAnalystInfo : AnalystInfo :=
  { currentPrice := none
    regularMarketPrice := none
    targetMeanPrice := some (345/2)
    targetHighPrice := none
    targetLowPrice := none
    recommendationKey := some "buy"
    numberOfAnalystOpinions := some 12
    recommendationMean := none }

/-- A representative financial-metrics payload. -/
def exFinInfo : FinInfo :=
  { totalRevenue := some 100000000000
    revenueGrowth := some (1/10)
    grossMargins := some (45/100)
    freeCashflow := some 20000000000
    operatingMargins := some (3/10) }

/-- A representative news payload. -/
def exNewsItems : List NewsItem :=
  [ { title := some "Quarterly results"
      publisher := some "Newswire"
      link := some "https://example.com/a"
      providerPublishTime := some 1700000000 } ]

/-- The quote fetch result of the example run. -/
def exQuote : Except String StockData := get_stock_data_fetch "AAPL" (Except.ok exQuoteInfo)

/-- The financial-metrics fetch result of the example run. -/
def exFin : Except String (List FinancialMetric) :=
  Except.ok (get_financial_metrics_fetch exFinInfo)

/-- The analyst fetch result of the example run. -/
def exAnalyst : Except String AnalystData := Except.ok (get_analyst_consensus_fetch exAnalystInfo)

/-- The news fetch result of the example run. -/
def exNews : Except String NewsData := Except.ok (get_news_sentiment_fetch exFmtTime exNewsItems)

/-- The peer fetch of the example run (always succeeds, as in the source). -/
def exPeer : String → Except String PeerData := fun ind => Except.ok (get_peer_comparison_fetch ind)

/-- A peer fetch that fails for every industry. -/
def failPeer : String → Except String PeerData := fun _ => Except.error "peer upstream error"

/-- A degenerate provider payload: too sparse to be real data. -/
def exSparseInfo : QuoteInfo :=
  { size := 0
    currentPrice := none, regularMarketPrice := none, previousClose := none
    marketCap := none, trailingPE := none
    fiftyTwoWeekHigh := none, fiftyTwoWeekLow := none
    industry := none, sector := none, longName := none, website := none
    longBusinessSummary := none, fullTimeEmployees := none
    revenueGrowth := none, earningsGrowth := none }

/-- A full-size payload whose resolved price is zero. -/
def exZeroInfo : QuoteInfo := { exQuoteInfo with currentPrice := none }

/-! ### Helper lemma on the insight assembly -/

lemma generate_ok_shape (t : String) (sd : StockData) (fd : List FinancialMetric)
    (ad : AnalystData) (nd : NewsData) (pd : PeerData) (l : List Insight)
    (h : generate_agent_insights t sd fd ad nd pd = Except.ok l) :
    l.length = 8 ∧
    l.map Insight.key = ["analyst_consensus", "news_sentiment", "financial_analyst",
      "market_intelligence", "peer_comparison", "management_quality", "valuation", "tech_risk"] ∧
    l.map Insight.name = ["Analyst Consensus", "News Sentiment", "Financial Health",
      "Market Intelligence", "Peer Comparison", "Management & Governance",
      "Valuation Analysis", "Technology & Innovation"] := by
  unfold generate_agent_insights at h
  cases hs : ad.priceTargets.source with
  | none => rw [hs] at h; simp at h
  | some ptS =>
    rw [hs] at h
    cases hl : ad.priceTargets.low with
    | none => rw [hl] at h; simp at h
    | some ptL =>
      rw [hl] at h
      cases hh : ad.priceTargets.high with
      | none => rw [hh] at h; simp at h
      | some ptH =>
        rw [hh] at h
        simp only [Except.ok.injEq] at h
        subst h
        exact ⟨rfl, rfl, rfl⟩

/-! ### Claim theorems -/

/-- C5: the derived upside/downside percentage equals
(averageTarget - currentPrice) / currentPrice * 100, and is 0 when the
current price is 0 (no division error); in particular price 100 with
average target 115 gives upside 15.0, and price 0 gives upside 0. -/
theorem upside_spec (cp tp : ℚ) (h : 0 < cp) :
    upsidePct cp tp = (tp - cp) / cp * 100
    ∧ upsidePct 0 tp = 0
    ∧ upsidePct 100 115 = 15
    ∧ upsidePct 0 115 = 0 := by
  refine ⟨?_, ?_, ?_, ?_⟩
  · unfold upsidePct; rw [if_pos h]
  · unfold upsidePct; rw [if_neg (by norm_num : ¬ (0:ℚ) > 0)]
  · unfold upsidePct; rw [if_pos (by norm_num : (100:ℚ) > 0)]; norm_num
  · unfold upsidePct; rw [if_neg (by norm_num : ¬ (0:ℚ) > 0)]

/-- Witness for C5 at price 100, target 115. -/
theorem upside_spec_witness :
    upsidePct 100 115 = (115 - 100) / 100 * 100
    ∧ upsidePct 0 115 = 0
    ∧ upsidePct 100 115 = 15
    ∧ upsidePct 0 115 = 0 :=
  upside_spec 100 115 (by norm_num)

/-- C8: the three documented format_market_cap examples. -/
theorem format_market_cap_examples :
    format_market_cap 1500000000 = "$1.50B"
    ∧ format_market_cap 2300000000000 = "$2.30T"
    ∧ format_market_cap 500 = "$500" :=
  ⟨by with_unfolding_all rfl, by with_unfolding_all rfl, by with_unfolding_all rfl⟩

/-- C7 counterexample: the two formatters do not share the 10^12 threshold.
At 10^12 the market-cap formatter yields a T-scaled string but the
large-number formatter stays in the B tier, so they differ in more than
decimal precision. -/
theorem formatters_tier_counterexample :
    format_large_number 1000000000000 = "$1000.0B"
    ∧ ¬ format_large_number 1000000000000 = "$1.00T"
    ∧ format_market_cap 1000000000000 = "$1.00T"
    ∧ format_market_cap 1500000000 = "$1.50B"
    ∧ ¬ format_large_number 1500000000 = "$1.50B" :=
  ⟨by with_unfolding_all rfl,
   of_decide_eq_false (by with_unfolding_all rfl),
   by with_unfolding_all rfl,
   by with_unfolding_all rfl,
   of_decide_eq_false (by with_unfolding_all rfl)⟩

/-- C7 amended: format_market_cap tiers at 10^12, 10^9, 10^6 with suffixes
T, B, M and two decimals; format_large_number tiers at 10^9 and 10^6 only,
with suffixes B and M and one decimal (no T tier); below the lowest
threshold both render grouped plain dollars; at 1.5e9 the outputs are
1.50B versus 1.5B, exhibiting the precision difference. -/
theorem formatters_tiers_amended (v₁ v₂ v₃ v₄ : ℚ)
    (h₁ : 1000000000000 ≤ v₁)
    (h₂ : 1000000000 ≤ v₂) (h₂b : v₂ < 1000000000000)
    (h₃ : 1000000 ≤ v₃) (h₃b : v₃ < 1000000000)
    (h₄ : v₄ < 1000000) :
    format_market_cap v₁ = "$" ++ formatFixed (v₁ / 1000000000000) 2 ++ "T"
    ∧ format_large_number v₁ = "$" ++ formatFixed (v₁ / 1000000000) 1 ++ "B"
    ∧ format_market_cap v₂ = "$" ++ formatFixed (v₂ / 1000000000) 2 ++ "B"
    ∧ format_large_number v₂ = "$" ++ formatFixed (v₂ / 1000000000) 1 ++ "B"
    ∧ format_market_cap v₃ = "$" ++ formatFixed (v₃ / 1000000) 2 ++ "M"
    ∧ format_large_number v₃ = "$" ++ formatFixed (v₃ / 1000000) 1 ++ "M"
    ∧ format_market_cap v₄ = "$" ++ formatComma0 v₄
    ∧ format_large_number v₄ = "$" ++ formatComma0 v₄
    ∧ format_market_cap 1500000000 = "$1.50B"
    ∧ format_large_number 1500000000 = "$1.5B" := by
  refine ⟨?_, ?_, ?_, ?_, ?_, ?_, ?_, ?_,
    by with_unfolding_all rfl, by with_unfolding_all rfl⟩
  · unfold format_market_cap; rw [if_pos h₁]
  · unfold format_large_number; rw [if_pos (le_trans (by norm_num) h₁)]
  · unfold format_market_cap; rw [if_neg (not_le.mpr h₂b), if_pos h₂]
  · unfold format_large_number; rw [if_pos h₂]
  · unfold format_market_cap
    rw [if_neg (not_le.mpr (lt_trans h₃b (by norm_num))), if_neg (not_le.mpr h₃b), if_pos h₃]
  · unfold format_large_number; rw [if_neg (not_le.mpr h₃b), if_pos h₃]
  · unfold format_market_cap
    rw [if_neg (not_le.mpr (lt_trans h₄ (by norm_num))),
      if_neg (not_le.mpr (lt_trans h₄ (by norm_num))), if_neg (not_le.mpr h₄)]
  · unfold format_large_number
    rw [if_neg (not_le.mpr (lt_trans h₄ (by norm_num))), if_neg (not_le.mpr h₄)]

/-- Witness for the amended C7 at one representative value per tier. -/
theorem formatters_tiers_amended_witness :
    format_market_cap 2300000000000 = "$" ++ formatFixed (2300000000000 / 1000000000000) 2 ++ "T"
    ∧ format_large_number 2300000000000 = "$" ++ formatFixed (2300000000000 / 1000000000) 1 ++ "B"
    ∧ format_market_cap 1500000000 = "$" ++ formatFixed (1500000000 / 1000000000) 2 ++ "B"
    ∧ format_large_number 1500000000 = "$" ++ formatFixed (1500000000 / 1000000000) 1 ++ "B"
    ∧ format_market_cap 2500000 = "$" ++ formatFixed (2500000 / 1000000) 2 ++ "M"
    ∧ format_large_number 2500000 = "$" ++ formatFixed (2500000 / 1000000) 1 ++ "M"
    ∧ format_market_cap 500 = "$" ++ formatComma0 500
    ∧ format_large_number 500 = "$" ++ formatComma0 500
    ∧ format_market_cap 1500000000 = "$1.50B"
    ∧ format_large_number 1500000000 = "$1.5B" :=
  formatters_tiers_amended 2300000000000 1500000000 2500000 500
    (by norm_num) (by norm_num) (by norm_num) (by norm_num) (by norm_num) (by norm_num)

/-- C10: whenever the news fetch succeeds the overall sentiment is the
hardcoded Positive with score 0.65, for every input news list; Neutral
appears only as the failure fallback and Negative is never produced. -/
theorem news_sentiment_hardcoded (fmtTime : ℚ → String) (items : List NewsItem) :
    (get_news_sentiment_fetch fmtTime items).overallSentiment = "Positive"
    ∧ (get_news_sentiment_fetch fmtTime items).sentimentScore = some (13/20)
    ∧ ¬ (get_news_sentiment_fetch fmtTime items).overallSentiment = "Negative"
    ∧ newsFallback.overallSentiment = "Neutral"
    ∧ ¬ newsFallback.overallSentiment = "Positive"
    ∧ ¬ newsFallback.overallSentiment = "Negative" :=
  ⟨by with_unfolding_all rfl,
   by with_unfolding_all rfl,
   of_decide_eq_false (by with_unfolding_all rfl),
   by with_unfolding_all rfl,
   of_decide_eq_false (by with_unfolding_all rfl),
   of_decide_eq_false (by with_unfolding_all rfl)⟩

/-- C2: a quote-fetch failure makes analyze_stock return a request-level
failure with the descriptive prefixed error, independently of the other
four fetch results (so no insight assembly happens); and a sparse payload
(len below 5) or a zero resolved price makes the quote fetch itself fail,
which in turn aborts the whole request. -/
theorem quote_failure_aborts
    (nowIso nowFmt tick e : String)
    (fin : Except String (List FinancialMetric)) (analyst : Except String AnalystData)
    (news : Except String NewsData) (peer : String → Except String PeerData)
    (infoSparse infoZero : QuoteInfo)
    (h₁ : infoSparse.size < 5)
    (h₂ : 5 ≤ infoZero.size) (h₃ : resolvePrice infoZero = 0) :
    analyze_stock nowIso nowFmt tick (Except.error e) fin analyst news peer
      = Except.error ("Failed to fetch stock data: " ++ e)
    ∧ isFailure (get_stock_data_fetch tick (Except.ok infoSparse)) = true
    ∧ isFailure (get_stock_data_fetch tick (Except.ok infoZero)) = true
    ∧ isFailure (analyze_stock nowIso nowFmt tick
        (get_stock_data_fetch tick (Except.ok infoSparse)) fin analyst news peer) = true
    ∧ isFailure (analyze_stock nowIso nowFmt tick
        (get_stock_data_fetch tick (Except.ok infoZero)) fin analyst news peer) = true := by
  have ha : quoteInner tick (Except.ok infoSparse) = Except.error ("No data returned for ticker "
      ++ tick ++ ". Ticker may be invalid or Yahoo Finance is blocking requests.") := by
    simp only [quoteInner]
    rw [if_pos h₁]
  have hb : quoteInner tick (Except.ok infoZero)
      = Except.error ("Could not fetch price for " ++ tick ++ ".") := by
    simp only [quoteInner]
    rw [if_neg (by omega), if_pos h₃]
  have hfa : get_stock_data_fetch tick (Except.ok infoSparse)
      = Except.error ("yfinance error for " ++ tick ++ ": " ++ ("No data returned for ticker "
        ++ tick ++ ". Ticker may be invalid or Yahoo Finance is blocking requests.")) := by
    simp only [get_stock_data_fetch]
    rw [ha]
  have hfb : get_stock_data_fetch tick (Except.ok infoZero)
      = Except.error ("yfinance error for " ++ tick ++ ": "
        ++ ("Could not fetch price for " ++ tick ++ ".")) := by
    simp only [get_stock_data_fetch]
    rw [hb]
  refine ⟨rfl, ?_, ?_, ?_, ?_⟩
  · rw [hfa]; rfl
  · rw [hfb]; rfl
  · rw [hfa]; rfl
  · rw [hfb]; rfl

/-- Witness for C2: an upstream error, the degenerate sparse payload, and a
payload resolving to price zero. -/
theorem quote_failure_aborts_witness :
    analyze_stock "T0" "T1" "aapl" (Except.error "boom") exFin exAnalyst exNews exPeer
      = Except.error ("Failed to fetch stock data: " ++ "boom")
    ∧ isFailure (get_stock_data_fetch "aapl" (Except.ok exSparseInfo)) = true
    ∧ isFailure (get_stock_data_fetch "aapl" (Except.ok exZeroInfo)) = true
    ∧ isFailure (analyze_stock "T0" "T1" "aapl"
        (get_stock_data_fetch "aapl" (Except.ok exSparseInfo)) exFin exAnalyst exNews exPeer) = true
    ∧ isFailure (analyze_stock "T0" "T1" "aapl"
        (get_stock_data_fetch "aapl" (Except.ok exZeroInfo)) exFin exAnalyst exNews exPeer) = true :=
  quote_failure_aborts "T0" "T1" "aapl" "boom" exFin exAnalyst exNews exPeer
    exSparseInfo exZeroInfo (by decide) (by decide) (by with_unfolding_all rfl)

/-- C3: the cache contract.  A non-expired entry is returned without
invoking the fetch function and without touching the cache; a miss invokes
the fetch, stores the pair (result, now) under the key and returns the
result; a second call on the same key within the 300-second window does not
invoke the fetch and returns the stored value; once the window elapses a
call invokes the fetch again; an expired entry likewise leads to a fetch
and a fresh store. -/
theorem cache_contract {V : Type}
    (c₁ : Cache V) (k₁ : String) (v₁ : V) (ts₁ now₁ : ℚ) (f₁ : Except String V)
    (c₂ : Cache V) (k₂ : String) (now₂ t₂ t₃ : ℚ) (d₂ : V) (f₂ f₃ : Except String V)
    (c₃ : Cache V) (k₃ : String) (v₃ : V) (ts₃ now₃ : ℚ) (d₃ : V)
    (h₁ : c₁ k₁ = some (v₁, ts₁)) (h₂ : now₁ - ts₁ < CACHE_DURATION)
    (h₃ : c₂ k₂ = none)
    (h₄ : t₂ - now₂ < CACHE_DURATION)
    (h₅ : ¬ t₃ - now₂ < CACHE_DURATION)
    (h₆ : c₃ k₃ = some (v₃, ts₃)) (h₇ : ¬ now₃ - ts₃ < CACHE_DURATION) :
    get_cached_or_fetch c₁ now₁ k₁ f₁ = ⟨Except.ok v₁, c₁, false⟩
    ∧ (get_cached_or_fetch c₂ now₂ k₂ (Except.ok d₂)).result = Except.ok d₂
    ∧ (get_cached_or_fetch c₂ now₂ k₂ (Except.ok d₂)).invoked = true
    ∧ (get_cached_or_fetch c₂ now₂ k₂ (Except.ok d₂)).cache k₂ = some (d₂, now₂)
    ∧ (get_cached_or_fetch ((get_cached_or_fetch c₂ now₂ k₂ (Except.ok d₂)).cache)
        t₂ k₂ f₂).invoked = false
    ∧ (get_cached_or_fetch ((get_cached_or_fetch c₂ now₂ k₂ (Except.ok d₂)).cache)
        t₂ k₂ f₂).result = Except.ok d₂
    ∧ (get_cached_or_fetch ((get_cached_or_fetch c₂ now₂ k₂ (Except.ok d₂)).cache)
        t₃ k₂ f₃).invoked = true
    ∧ (get_cached_or_fetch c₃ now₃ k₃ (Except.ok d₃)).invoked = true
    ∧ (get_cached_or_fetch c₃ now₃ k₃ (Except.ok d₃)).cache k₃ = some (d₃, now₃) := by
  have hm : get_cached_or_fetch c₂ now₂ k₂ (Except.ok d₂)
      = ⟨Except.ok d₂, fun k => if k = k₂ then some (d₂, now₂) else c₂ k, true⟩ := by
    simp only [get_cached_or_fetch, h₃]
    rfl
  have hx : get_cached_or_fetch c₃ now₃ k₃ (Except.ok d₃)
      = ⟨Except.ok d₃, fun k => if k = k₃ then some (d₃, now₃) else c₃ k, true⟩ := by
    simp only [get_cached_or_fetch, h₆]
    rw [if_neg h₇]
    rfl
  refine ⟨?_, by rw [hm], by rw [hm], by rw [hm]; simp, ?_, ?_, ?_, by rw [hx], by rw [hx]; simp⟩
  · simp only [get_cached_or_fetch, h₁]
    rw [if_pos h₂]
  · rw [hm]
    simp [get_cached_or_fetch, h₄]
  · rw [hm]
    simp [get_cached_or_fetch, h₄]
  · rw [hm]
    cases f₃ with
    | ok d => simp [get_cached_or_fetch, h₅, fetchStore]
    | error e => simp [get_cached_or_fetch, h₅, fetchStore]

/-- Witness for C3 with concrete caches, keys and times. -/
theorem cache_contract_witness :
    get_cached_or_fetch (fun k => if k = "stock_AAPL" then some ((7:Nat), (100:ℚ)) else none)
        200 "stock_AAPL" (Except.ok 9)
      = ⟨Except.ok 7, fun k => if k = "stock_AAPL" then some ((7:Nat), (100:ℚ)) else none, false⟩
    ∧ (get_cached_or_fetch (fun _ => none) 0 "stock_MSFT" (Except.ok (5:Nat))).result = Except.ok 5
    ∧ (get_cached_or_fetch (fun _ => none) 0 "stock_MSFT" (Except.ok (5:Nat))).invoked = true
    ∧ (get_cached_or_fetch (fun _ => none) 0 "stock_MSFT"
        (Except.ok (5:Nat))).cache "stock_MSFT" = some (5, 0)
    ∧ (get_cached_or_fetch ((get_cached_or_fetch (fun _ => none) 0 "stock_MSFT"
        (Except.ok (5:Nat))).cache) 100 "stock_MSFT" (Except.ok 6)).invoked = false
    ∧ (get_cached_or_fetch ((get_cached_or_fetch (fun _ => none) 0 "stock_MSFT"
        (Except.ok (5:Nat))).cache) 100 "stock_MSFT" (Except.ok 6)).result = Except.ok 5
    ∧ (get_cached_or_fetch ((get_cached_or_fetch (fun _ => none) 0 "stock_MSFT"
        (Except.ok (5:Nat))).cache) 400 "stock_MSFT" (Except.ok 8)).invoked = true
    ∧ (get_cached_or_fetch (fun k => if k = "news_TSLA" then some ((3:Nat), (0:ℚ)) else none)
        400 "news_TSLA" (Except.ok 4)).invoked = true
    ∧ (get_cached_or_fetch (fun k => if k = "news_TSLA" then some ((3:Nat), (0:ℚ)) else none)
        400 "news_TSLA" (Except.ok 4)).cache "news_TSLA" = some (4, 400) :=
  cache_contract
    (fun k => if k = "stock_AAPL" then some ((7:Nat), (100:ℚ)) else none) "stock_AAPL" 7 100 200
    (Except.ok 9)
    (fun _ => none) "stock_MSFT" 0 100 400 5 (Except.ok 6) (Except.ok 8)
    (fun k => if k = "news_TSLA" then some ((3:Nat), (0:ℚ)) else none) "news_TSLA" 3 0 400 4
    (by with_unfolding_all rfl) (by norm_num [CACHE_DURATION])
    rfl
    (by norm_num [CACHE_DURATION])
    (by norm_num [CACHE_DURATION])
    (by with_unfolding_all rfl) (by norm_num [CACHE_DURATION])

/-- C6: failures are never cached.  When the fetch function raises on a
miss (or on an expired entry), get_cached_or_fetch propagates the failure,
the cache is left exactly as it was, and a subsequent call for the same key
invokes the fetch function again. -/
theorem failures_not_cached {V : Type}
    (c : Cache V) (k e : String) (now t₂ : ℚ) (f₂ : Except String V)
    (cE : Cache V) (vE : V) (tsE nowE : ℚ) (eE : String)
    (h₁ : c k = none)
    (h₂ : cE k = some (vE, tsE)) (h₃ : ¬ nowE - tsE < CACHE_DURATION) :
    (get_cached_or_fetch c now k (Except.error e)).result = Except.error e
    ∧ (get_cached_or_fetch c now k (Except.error e)).cache = c
    ∧ (get_cached_or_fetch c now k (Except.error e)).invoked = true
    ∧ (get_cached_or_fetch ((get_cached_or_fetch c now k (Except.error e)).cache)
        t₂ k f₂).invoked = true
    ∧ (get_cached_or_fetch cE nowE k (Except.error eE)).result = Except.error eE
    ∧ (get_cached_or_fetch cE nowE k (Except.error eE)).cache = cE := by
  have hm : get_cached_or_fetch c now k (Except.error e) = ⟨Except.error e, c, true⟩ := by
    simp only [get_cached_or_fetch, h₁]
    rfl
  have hx : get_cached_or_fetch cE nowE k (Except.error eE) = ⟨Except.error eE, cE, true⟩ := by
    simp only [get_cached_or_fetch, h₂]
    rw [if_neg h₃]
    rfl
  refine ⟨by rw [hm], by rw [hm], by rw [hm], ?_, by rw [hx], by rw [hx]⟩
  rw [hm]
  simp only [get_cached_or_fetch, h₁]
  cases f₂ with
  | ok d => rfl
  | error e2 => rfl

/-- Witness for C6: a failing fetch on an empty cache and on an expired
entry. -/
theorem failures_not_cached_witness :
    (get_cached_or_fetch (fun _ => (none : Option (Nat × ℚ))) 50 "financials_AAPL"
        (Except.error "boom")).result = Except.error "boom"
    ∧ (get_cached_or_fetch (fun _ => (none : Option (Nat × ℚ))) 50 "financials_AAPL"
        (Except.error "boom")).cache = (fun _ => (none : Option (Nat × ℚ)))
    ∧ (get_cached_or_fetch (fun _ => (none : Option (Nat × ℚ))) 50 "financials_AAPL"
        (Except.error "boom")).invoked = true
    ∧ (get_cached_or_fetch ((get_cached_or_fetch (fun _ => (none : Option (Nat × ℚ)))
        50 "financials_AAPL" (Except.error "boom")).cache) 80 "financials_AAPL"
        (Except.ok (3:Nat))).invoked = true
    ∧ (get_cached_or_fetch (fun k => if k = "financials_AAPL" then some ((2:Nat), (0:ℚ)) else none)
        500 "financials_AAPL" (Except.error "again")).result = Except.error "again"
    ∧ (get_cached_or_fetch (fun k => if k = "financials_AAPL" then some ((2:Nat), (0:ℚ)) else none)
        500 "financials_AAPL" (Except.error "again")).cache
      = (fun k => if k = "financials_AAPL" then some ((2:Nat), (0:ℚ)) else none) :=
  failures_not_cached (fun _ => none) "financials_AAPL" "boom" 50 80 (Except.ok 3)
    (fun k => if k = "financials_AAPL" then some ((2:Nat), (0:ℚ)) else none) 2 0 500 "again"
    rfl (by with_unfolding_all rfl) (by norm_num [CACHE_DURATION])

/-- C1 (code-bug evidence): with the quote fetch succeeding, a failure of
the financial-metrics, news or peer fetch alone degrades exactly as the
claim says (success, fallback values in the dependent insights, real values
elsewhere), but a failure of the analyst fetch alone aborts the whole
request: the fallback has an empty priceTargets dictionary, and the
insight assembly subscripts it directly for the source key, so a KeyError
escapes to the outer handler and the request returns a failure instead of
a degraded success. -/
theorem secondary_fetch_isolation :
    errorMsg (analyze_stock "T0" "T1" "aapl" exQuote exFin
        (Except.error "analyst upstream error") exNews exPeer) = some "KeyError: source"
    ∧ ((okValue (analyze_stock "T0" "T1" "aapl" exQuote (Except.error "fin upstream error")
          exAnalyst exNews exPeer)).map
        (fun a => (a.metrics.currentPrice, a.metrics.analystRating, a.financials,
          strContains ((a.agentInsights.map Insight.summary).getD 2 "") "N/A",
          strContains ((a.agentInsights.map Insight.summary).getD 6 "") "15.0%")))
      = some (150, "Buy", [], true, true)
    ∧ ((okValue (analyze_stock "T0" "T1" "aapl" exQuote exFin exAnalyst
          (Except.error "news upstream error") exPeer)).map
        (fun a => ((a.agentInsights.map Insight.summary).getD 1 "",
          a.metrics.currentPrice, a.metrics.analystRating)))
      = some ("Recent sentiment analysis for AAPL shows Neutral coverage. 0 recent articles analyzed from Yahoo Finance.",
          150, "Buy")
    ∧ ((okValue (analyze_stock "T0" "T1" "aapl" exQuote exFin exAnalyst exNews failPeer)).map
        (fun a => ((a.agentInsights.map Insight.dataSource).getD 4 "",
          strContains ((a.agentInsights.map Insight.summary).getD 3 "") "market data",
          a.metrics.currentPrice)))
      = some ("Market Analysis", true, 150)
    ∧ ((okValue (analyze_stock "T0" "T1" "aapl" exQuote exFin exAnalyst exNews exPeer)).map
        (fun a => (a.metrics.analystRating, a.financials.length,
          strContains ((a.agentInsights.map Insight.summary).getD 2 "") "N/A")))
      = some ("Buy", 4, false) :=
  ⟨by with_unfolding_all rfl, by with_unfolding_all rfl, by with_unfolding_all rfl,
   by with_unfolding_all rfl, by with_unfolding_all rfl⟩

/-- C4: every successful analyze_stock result carries exactly eight insight
records, in the fixed order of kinds analyst consensus, news sentiment,
financial health, market intelligence, peer comparison, management and
governance, valuation, technology and innovation (the valuation record is
displayed as Valuation Analysis under the key valuation), regardless of
the outcomes of the four secondary fetches. -/
theorem insights_fixed_shape (nowIso nowFmt tickerRaw : String)
    (quote : Except String StockData) (fin : Except String (List FinancialMetric))
    (analyst : Except String AnalystData) (news : Except String NewsData)
    (peer : String → Except String PeerData) (a : Analysis)
    (h : analyze_stock nowIso nowFmt tickerRaw quote fin analyst news peer = Except.ok a) :
    a.agentInsights.length = 8 ∧
    a.agentInsights.map Insight.key = ["analyst_consensus", "news_sentiment",
      "financial_analyst", "market_intelligence", "peer_comparison", "management_quality",
      "valuation", "tech_risk"] ∧
    a.agentInsights.map Insight.name = ["Analyst Consensus", "News Sentiment",
      "Financial Health", "Market Intelligence", "Peer Comparison", "Management & Governance",
      "Valuation Analysis", "Technology & Innovation"] := by
  cases quote with
  | error e => simp [analyze_stock] at h
  | ok sd =>
    simp only [analyze_stock] at h
    cases hg : generate_agent_insights (strUpper tickerRaw) sd (degradeFin fin)
        (degradeAnalyst analyst) (degradeNews news) (degradePeer (peer sd.industry)) with
    | error e => rw [hg] at h; simp at h
    | ok ins =>
      rw [hg] at h
      simp only [Except.ok.injEq] at h
      subst h
      exact generate_ok_shape _ _ _ _ _ _ _ hg

/-- Witness for C4 on the concrete example run. -/
theorem insights_fixed_shape_witness :
    (okValue (analyze_stock "T0" "T1" "aapl" exQuote exFin exAnalyst exNews exPeer)).map
        (fun a => a.agentInsights.map Insight.key)
      = some ["analyst_consensus", "news_sentiment", "financial_analyst", "market_intelligence",
          "peer_comparison", "management_quality", "valuation", "tech_risk"] := by
  cases h : analyze_stock "T0" "T1" "aapl" exQuote exFin exAnalyst exNews exPeer with
  | error e =>
    have hh : isFailure (analyze_stock "T0" "T1" "aapl" exQuote exFin exAnalyst exNews exPeer)
        = false := by with_unfolding_all rfl
    rw [h] at hh
    simp [isFailure] at hh
  | ok a =>
    have hshape := insights_fixed_shape "T0" "T1" "aapl" exQuote exFin exAnalyst exNews exPeer a h
    simpa [okValue] using hshape.2.1

/-- C9: on the documented example payloads (quote: price 150, previous
close 145, market cap 2e9, trailing PE 25; analyst: mean target 172.5,
12 opinions, recommendation buy) the assembled metrics block shows price
150, change 5, change percent 3.45 and rating Buy, and the valuation
insight summary embeds the 15.0 percent upside. -/
theorem example_end_to_end :
    ((okValue (analyze_stock "2024-01-01T00:00:00" "2024-01-01 00:00 UTC" "AAPL"
        exQuote exFin exAnalyst exNews exPeer)).map
      (fun a => (a.metrics.currentPrice, a.metrics.priceChange, a.metrics.priceChangePercent,
        a.metrics.analystRating,
        strContains ((a.agentInsights.map Insight.summary).getD 6 "") "15.0%")))
    = some (150, 5, 69/20, "Buy", true) := by with_unfolding_all rfl

end StockAnalysis
